import Mathlib

/-!
# UserMedia.js: camera session controller

A shallow embedding of `src/js/UserMedia.js`.  The script keeps four module
variables (`mediaStream`, `webcamList`, `currentCam`, `photoReady`) and reacts to
page events and to the results of two asynchronous host requests
(`enumerateDevices`, `getUserMedia`).  Every function of the script becomes a
function on `State`, which holds the module variables, the parts of the
document and of `navigator` the script touches, and the list of host calls
issued so far (in program order).  A promise callback is a separate function
the host applies later to the state of that moment.
-/

namespace UserMedia

/-! ## Data model -/

/-- Device descriptor as `enumerateDevices` delivers it. -/
structure Device where
  kind : String
  deviceId : String
deriving DecidableEq, Repr

/-- Identity of a media stream track. -/
abbrev Track := Nat

/-- Stream held in `mediaStream`.  The script obtains streams only from
`getUserMedia` requests that ask for video alone (one device, no audio), and such
a request resolves with a stream of exactly one track, a video track. -/
structure MediaStream where
  videoTrack : Track
deriving DecidableEq, Repr

/-- Result of `getVideoTracks()` on a stream. -/
def MediaStream.getVideoTracks (m : MediaStream) : List Track :=
  [m.videoTrack]

/-- Error object passed to the rejection callback of `getUserMedia`. -/
structure MediaError where
  name : String
deriving DecidableEq, Repr

/-- The functions of the script that are registered as event listeners. -/
inductive Handler where
  | capture
  | nextWebCam
  | savePhoto
  | deviceChanged
deriving DecidableEq, Repr

/-- Picture shown by the video element at some instant. -/
abbrev Frame := Nat

/-- Bitmap of the canvas: blank, or the last frame drawn with its extent. -/
inductive Bitmap where
  | blank
  | drawn (frame : Frame) (width height : Nat)
deriving DecidableEq, Repr

/-- The element `canvasTag`. -/
structure Canvas where
  width : Nat
  height : Nat
  bitmap : Bitmap
  clickListeners : List Handler
deriving DecidableEq, Repr

/-- Value of `video.srcObject`. -/
inductive SrcObject where
  | undefined
  | null
  | stream (m : MediaStream)
deriving DecidableEq, Repr

/-- Value of `video.src`. -/
inductive Src where
  | untouched
  | null
  | objectURL (m : MediaStream)
deriving DecidableEq, Repr

/-- The element `videoTag`. -/
structure Video where
  srcObject : SrcObject
  src : Src
  videoWidth : Nat
  videoHeight : Nat
  frame : Frame
  clickListeners : List Handler
deriving DecidableEq, Repr

/-- Encoded image produced from the canvas by `msToBlob` or `toDataURL`. -/
structure Image where
  mime : String
  width : Nat
  height : Nat
  bitmap : Bitmap
deriving DecidableEq, Repr

/-- Calls the script makes on the host, as they appear in the call log. -/
inductive HostCall where
  | getUserMedia (width height : Nat) (exactDeviceId : Option String)
  | legacyGetUserMedia
  | enumerateDevices
  | trackStop (t : Track)
  | msSaveBlob (img : Image) (fileName : String)
  | linkClick (href : Option Image) (download : Option String)
  | addDeviceChangeListener
  | removeDeviceChangeListener
deriving DecidableEq, Repr

/-- Module variables, document, navigator and call log. -/
structure State where
  mediaStream : Option MediaStream
  webcamList : List String
  currentCam : Option Nat
  photoReady : Bool
  video : Video
  canvas : Canvas
  switchDisabled : Bool
  switchClickListeners : List Handler
  errorLines : List String
  photoViewText : String
  tooltip : String
  linkHref : Option Image
  linkDownload : Option String
  hasMsSaveBlob : Bool
  hasEnumerateDevices : Bool
  hasGetUserMedia : Bool
  deviceChangeListeners : List Handler
  calls : List HostCall
deriving DecidableEq, Repr

/-! ## Host operations -/

/-- `target.addEventListener(type, h)`: a listener already present is not added again. -/
def addEventListener (h : Handler) (ls : List Handler) : List Handler :=
  if h ∈ ls then ls else ls ++ [h]

/-- `target.removeEventListener(type, h)`. -/
def removeEventListener (h : Handler) (ls : List Handler) : List Handler :=
  ls.filter (fun l => decide (l ≠ h))

/-- Appends a host call to the log. -/
def State.call (s : State) (c : HostCall) : State :=
  { s with calls := s.calls ++ [c] }

/-- `canvas.msToBlob(mime)` and `canvas.toDataURL(mime)`. -/
def Canvas.encode (c : Canvas) (mime : String) : Image :=
  { mime := mime, width := c.width, height := c.height, bitmap := c.bitmap }

/-- Assigning `canvas.width` and `canvas.height` resets the bitmap. -/
def Canvas.resize (c : Canvas) (w h : Nat) : Canvas :=
  { c with width := w, height := h, bitmap := Bitmap.blank }

/-- `ctx.drawImage(video, 0, 0, w, h)`. -/
def Canvas.drawImage (c : Canvas) (v : Video) (w h : Nat) : Canvas :=
  { c with bitmap := Bitmap.drawn v.frame w h }

/-- JavaScript `hay.indexOf(needle)` counted from position `i`: the first position
at which `needle` occurs, or `-1`. -/
def indexOfFrom (needle : List Char) : List Char → Nat → Int
  | [], i => if needle.isPrefixOf [] then (i : Int) else -1
  | c :: hay, i =>
    if needle.isPrefixOf (c :: hay) then (i : Int) else indexOfFrom needle hay (i + 1)

/-- JavaScript `hay.indexOf(needle)`. -/
def indexOf (hay needle : String) : Int :=
  indexOfFrom needle.data hay.data 0

/-- JavaScript array read `a[i]`, `none` standing for `undefined`. -/
def arrayGet (a : List String) (i : Option Nat) : Option String :=
  match i with
  | none => none
  | some n => a.get? n

/-! ## The script -/

/-- `writeError(string)`. -/
def writeError (string : String) (s : State) : State :=
  { s with errorLines := s.errorLines ++ ["ERROR: " ++ string] }

/-- `initializeVideoStream(stream)`. -/
def initializeVideoStream (stream : MediaStream) (s : State) : State :=
  let s := { s with mediaStream := some stream }
  let s :=
    if s.video.srcObject ≠ SrcObject.undefined then
      { s with video := { s.video with srcObject := SrcObject.stream stream } }
    else
      { s with video := { s.video with src := Src.objectURL stream } }
  if s.webcamList.length > 1 then { s with switchDisabled := false } else s

/-- `getUserMediaError(e)`. -/
def getUserMediaError (e : MediaError) (s : State) : State :=
  if indexOf e.name "NotFoundError" ≥ 0 then
    writeError "Webcam not found." s
  else
    writeError ("The following error occurred: \"" ++ e.name ++
      "\" Please check your webcam device(s) and try again.") s

/-- `savePhoto()`. -/
def savePhoto (s : State) : State :=
  if s.photoReady then
    let s :=
      if s.hasMsSaveBlob then
        s.call (HostCall.msSaveBlob (s.canvas.encode "image/jpeg") "myPhoto.jpg")
      else
        let s := { s with linkHref := some (s.canvas.encode "image/jpeg") }
        let s := { s with linkDownload := some "myPhoto.jpg" }
        s.call (HostCall.linkClick s.linkHref s.linkDownload)
    let s := { s with canvas :=
      { s.canvas with clickListeners := removeEventListener Handler.savePhoto s.canvas.clickListeners } }
    let s := { s with photoViewText := "" }
    { s with photoReady := false }
  else s

/-- `capture()`. -/
def capture (s : State) : State :=
  if s.mediaStream.isNone then s
  else
    let canvas : Canvas :=
      { s.canvas with clickListeners := removeEventListener Handler.savePhoto s.canvas.clickListeners }
    let videoWidth := s.video.videoWidth
    let videoHeight := s.video.videoHeight
    let canvas :=
      if canvas.width ≠ videoWidth ∨ canvas.height ≠ videoHeight then
        canvas.resize videoWidth videoHeight
      else canvas
    let canvas := canvas.drawImage s.video s.video.videoWidth s.video.videoHeight
    let s := { s with canvas := canvas, photoReady := true }
    let s := { s with photoViewText := "Click or tap below to save as .jpg" }
    { s with canvas :=
      { s.canvas with clickListeners := addEventListener Handler.savePhoto s.canvas.clickListeners } }

/-- First part of `nextWebCam()`: disable the switch, move the cursor and release
the stream in use (everything before the `getUserMedia` call). -/
def nextWebCamSelect (s : State) : State :=
  let s := { s with switchDisabled := true }
  match s.currentCam with
  | some cam =>
    let cam := cam + 1
    let cam := if cam ≥ s.webcamList.length then 0 else cam
    let s := { s with currentCam := some cam }
    let s := { s with video := { s.video with srcObject := SrcObject.null, src := Src.null } }
    match s.mediaStream with
    | some m =>
      let videoTracks := m.getVideoTracks
      let s := s.call (HostCall.trackStop (videoTracks.head (List.cons_ne_nil _ _)))
      { s with mediaStream := none }
    | none => s
  | none => { s with currentCam := some 0 }

/-- Second part of `nextWebCam()`: the `getUserMedia` call for `webcamList[currentCam]`. -/
def nextWebCamRequest (s : State) : State :=
  s.call (HostCall.getUserMedia 1280 720 (arrayGet s.webcamList s.currentCam))

/-- `nextWebCam()`. -/
def nextWebCam (s : State) : State :=
  nextWebCamRequest (nextWebCamSelect s)

/-- `deviceChanged()`. -/
def deviceChanged (s : State) : State :=
  let s := (s.call HostCall.removeDeviceChangeListener)
  let s := { s with deviceChangeListeners :=
    removeEventListener Handler.deviceChanged s.deviceChangeListeners }
  let s := { s with webcamList := [] }
  s.call HostCall.enumerateDevices

/-- The `for` loop of `devicesCallback`: walks `devices` from index 0 upwards and
appends the `deviceId` of each `videoinput` entry to the list. -/
def identifyWebcams : List Device → List String → List String
  | [], webcamList => webcamList
  | d :: devices, webcamList =>
    identifyWebcams devices
      (if d.kind = "videoinput" then webcamList ++ [d.deviceId] else webcamList)

/-- `devicesCallback(devices)`. -/
def devicesCallback (devices : List Device) (s : State) : State :=
  let s := { s with webcamList := identifyWebcams devices s.webcamList }
  let s :=
    if s.webcamList.length > 0 then
      let s := nextWebCam s
      if s.webcamList.length > 1 then { s with switchDisabled := false }
      else { s with switchDisabled := true }
    else
      writeError "Webcam not found." s
  let s := s.call HostCall.addDeviceChangeListener
  { s with deviceChangeListeners := addEventListener Handler.deviceChanged s.deviceChangeListeners }

/-- `init()`. -/
def init (s : State) : State :=
  let s := { s with video :=
    { s.video with clickListeners := addEventListener Handler.capture s.video.clickListeners } }
  let s := { s with switchClickListeners :=
    addEventListener Handler.nextWebCam s.switchClickListeners }
  if s.hasEnumerateDevices then
    s.call HostCall.enumerateDevices
  else if s.hasGetUserMedia then
    let s := { s with tooltip :=
      "Cannot switch web cams because navigator.mediaDevices.enumerateDevices is unsupported by your browser." }
    s.call HostCall.legacyGetUserMedia
  else
    writeError "You are using a browser that does not support the Media Capture API" s

/-- The script body: the four `var` declarations followed by `init()`, run on the
page as the host loaded it. -/
def script (page : State) : State :=
  init { page with mediaStream := none, webcamList := [], currentCam := none, photoReady := false }

/-! ## Scenario drivers -/

/-- What the host answers to a pending `getUserMedia` request before the next
user action: nothing yet, a stream, or an error. -/
inductive HostReply where
  | pending
  | resolved (m : MediaStream)
  | rejected (e : MediaError)
deriving DecidableEq, Repr

/-- Runs the promise callback matching the reply of the host. -/
def deliver : HostReply → State → State
  | HostReply.pending, s => s
  | HostReply.resolved m, s => initializeVideoStream m s
  | HostReply.rejected e, s => getUserMediaError e s

/-- One click on the switch button followed by the reply of the host to the request. -/
def switchRound (r : HostReply) (s : State) : State :=
  deliver r (nextWebCam s)

/-- Consecutive clicks on the switch button, one per reply. -/
def switchRounds : List HostReply → State → State
  | [], s => s
  | r :: rs, s => switchRounds rs (switchRound r s)

/-- One `devicechange` notification: `deviceChanged()` and then the
`devicesCallback` of the enumeration it started. -/
def hotPlug (devices : List Device) (s : State) : State :=
  devicesCallback devices (deviceChanged s)

/-- Repeated `devicechange` notifications, one per enumeration result. -/
def hotPlugs : List (List Device) → State → State
  | [], s => s
  | d :: ds, s => hotPlugs ds (hotPlug d s)

/-- Clicks on the video element (`capture`) and on the canvas (`savePhoto`). -/
inductive Click where
  | video
  | canvas
deriving DecidableEq, Repr

/-- Runs `capture` for a click on the video and `savePhoto` for a click on the
canvas; `savePhoto` is called directly, registered or not. -/
def click : Click → State → State
  | Click.video, s => capture s
  | Click.canvas, s => savePhoto s

/-- A sequence of `capture` and `savePhoto` calls. -/
def clicks : List Click → State → State
  | [], s => s
  | c :: cs, s => clicks cs (click c s)

/-- Number of `savePhoto` bindings on the canvas. -/
def saveBindings (s : State) : Nat :=
  s.canvas.clickListeners.count Handler.savePhoto

/-- Host calls that hand a file to the user. -/
def HostCall.isDownload : HostCall → Bool
  | HostCall.msSaveBlob _ _ => true
  | HostCall.linkClick _ _ => true
  | _ => false

/-- File name under which a download call saves. -/
def HostCall.downloadName : HostCall → Option String
  | HostCall.msSaveBlob _ n => some n
  | HostCall.linkClick _ n => n
  | _ => none

/-- Number of downloads in a call log. -/
def downloads (cs : List HostCall) : Nat :=
  cs.countP HostCall.isDownload

/-- Text of the generic acquisition error for an error name. -/
def genericMessage (name : String) : String :=
  "The following error occurred: \"" ++ name ++
    "\" Please check your webcam device(s) and try again."

/-- A page right after loading, in a browser with `mediaDevices.enumerateDevices`
and without `msSaveBlob`; the video plays a 640x480 picture. -/
def demoPage : State where
  mediaStream := none
  webcamList := []
  currentCam := none
  photoReady := false
  video :=
    { srcObject := SrcObject.null, src := Src.untouched, videoWidth := 640,
      videoHeight := 480, frame := 7, clickListeners := [] }
  canvas := { width := 300, height := 150, bitmap := Bitmap.blank, clickListeners := [] }
  switchDisabled := true
  switchClickListeners := []
  errorLines := []
  photoViewText := ""
  tooltip := ""
  linkHref := none
  linkDownload := none
  hasMsSaveBlob := false
  hasEnumerateDevices := true
  hasGetUserMedia := true
  deviceChangeListeners := []
  calls := []

/-- The demo page after the script ran, two cameras were enumerated and the host
delivered the stream of the first one. -/
def twoCamSession : State :=
  initializeVideoStream { videoTrack := 1 }
    (devicesCallback
      [⟨"audioinput", "mic"⟩, ⟨"videoinput", "camA"⟩, ⟨"videoinput", "camB"⟩]
      (script demoPage))

/-- Tracks on which a call log records `stop()`. -/
def stoppedTracks : List HostCall → List Track
  | [] => []
  | HostCall.trackStop t :: cs => t :: stoppedTracks cs
  | _ :: cs => stoppedTracks cs

/-- Consecutive `capture` calls. -/
def captureTimes : Nat → State → State
  | 0, s => s
  | n + 1, s => captureTimes n (capture s)

/-- The save binding is present exactly once when a photo is ready and absent
otherwise. -/
def BindingMatchesReady (s : State) : Prop :=
  saveBindings s = if s.photoReady then 1 else 0

/-! ## Lemmas on the host operations -/

theorem indexOfFrom_nonneg_iff (needle : List Char) (hay : List Char) (i : Nat) :
    0 ≤ indexOfFrom needle hay i ↔ needle <:+: hay := by
  induction hay generalizing i with
  | nil =>
    unfold indexOfFrom
    by_cases h : needle.isPrefixOf [] = true
    · rw [if_pos h]
      have h2 := List.isPrefixOf_iff_prefix.mp h
      exact ⟨fun _ => h2.isInfix, fun _ => Int.ofNat_nonneg i⟩
    · rw [if_neg h]
      constructor
      · intro h2; omega
      · intro h2
        refine absurd (List.isPrefixOf_iff_prefix.mpr ?_) h
        rw [List.eq_nil_of_infix_nil h2]
  | cons c hay ih =>
    unfold indexOfFrom
    rw [List.infix_cons_iff]
    by_cases h : needle.isPrefixOf (c :: hay) = true
    · rw [if_pos h]
      exact ⟨fun _ => Or.inl (List.isPrefixOf_iff_prefix.mp h), fun _ => Int.ofNat_nonneg i⟩
    · rw [if_neg h, ih]
      constructor
      · intro h2; exact Or.inr h2
      · intro h2
        rcases h2 with h2 | h2
        · exact absurd (List.isPrefixOf_iff_prefix.mpr h2) h
        · exact h2

theorem indexOf_nonneg_iff (hay needle : String) :
    indexOf hay needle ≥ 0 ↔ needle.data <:+: hay.data := by
  unfold indexOf
  exact indexOfFrom_nonneg_iff needle.data hay.data 0

theorem identifyWebcams_eq (devices : List Device) (webcamList : List String) :
    identifyWebcams devices webcamList =
      webcamList ++
        (devices.filter (fun d => decide (d.kind = "videoinput"))).map Device.deviceId := by
  induction devices generalizing webcamList with
  | nil => simp [identifyWebcams]
  | cons d ds ih =>
    unfold identifyWebcams
    rw [ih]
    by_cases h : d.kind = "videoinput"
    · simp [h]
    · simp [h]

theorem nextWebCamSelect_webcamList (s : State) :
    (nextWebCamSelect s).webcamList = s.webcamList := by
  unfold nextWebCamSelect
  cases h1 : s.currentCam <;> cases h2 : s.mediaStream <;> simp [h1, h2, State.call]

theorem nextWebCam_webcamList (s : State) : (nextWebCam s).webcamList = s.webcamList := by
  unfold nextWebCam nextWebCamRequest
  simp [State.call, nextWebCamSelect_webcamList]

theorem devicesCallback_webcamList_eq (devices : List Device) (s : State) :
    (devicesCallback devices s).webcamList = identifyWebcams devices s.webcamList := by
  unfold devicesCallback
  by_cases h : (identifyWebcams devices s.webcamList).length > 0
  · by_cases h2 : (identifyWebcams devices s.webcamList).length > 1
    · simp [h, h2, State.call, nextWebCam_webcamList]
    · simp [h, h2, State.call, nextWebCam_webcamList]
  · simp [h, State.call, writeError]

/-! ## Device enumeration -/

/-- C1: run on an empty `webcamList`, `devicesCallback` leaves in `webcamList` the
`deviceId`s of exactly the `videoinput` descriptors, in enumeration order, each
one once; `deviceChanged` and the start of the script both leave the list empty. -/
theorem devicesCallback_filters_videoinput (devices : List Device) (s t : State)
    (h : s.webcamList = []) :
    (devicesCallback devices s).webcamList =
        (devices.filter (fun d => decide (d.kind = "videoinput"))).map Device.deviceId ∧
      (deviceChanged t).webcamList = [] ∧ (script t).webcamList = [] := by
  refine ⟨?_, ?_, ?_⟩
  · rw [devicesCallback_webcamList_eq, identifyWebcams_eq, h, List.nil_append]
  · simp [deviceChanged, State.call]
  · unfold script init
    by_cases h1 : t.hasEnumerateDevices = true
    · simp [h1, State.call]
    · by_cases h2 : t.hasGetUserMedia = true
      · simp [h1, h2, State.call]
      · simp [h1, h2, writeError]

theorem devicesCallback_filters_videoinput_witness :
    demoPage.webcamList = [] ∧
      (devicesCallback
        [⟨"audioinput", "mic"⟩, ⟨"videoinput", "camA"⟩, ⟨"audiooutput", "spk"⟩,
          ⟨"videoinput", "camB"⟩] demoPage).webcamList = ["camA", "camB"] :=
  ⟨rfl, (devicesCallback_filters_videoinput _ demoPage demoPage rfl).1.trans (by decide)⟩

/-! ## Capture and save -/

theorem savePhoto_not_ready (s : State) (h : s.photoReady = false) : savePhoto s = s := by
  simp [savePhoto, h]

theorem capture_calls (s : State) : (capture s).calls = s.calls := by
  unfold capture
  by_cases h : s.mediaStream.isNone = true
  · simp [h]
  · simp [h]

theorem capture_photoReady (s : State) (h : s.mediaStream.isNone = false) :
    (capture s).photoReady = true := by
  simp [capture, h]

/-- C6: with no stream (`mediaStream` is null) `capture` returns at once: the canvas
(width, height, bitmap, click listeners), `photoReady` and the hint label keep
their values, as does the rest of the state. -/
theorem capture_without_stream (s : State) (h : s.mediaStream = none) :
    capture s = s ∧ (capture s).canvas = s.canvas ∧
      (capture s).photoReady = s.photoReady ∧
      (capture s).photoViewText = s.photoViewText := by
  have h1 : capture s = s := by simp [capture, h]
  rw [h1]
  exact ⟨rfl, rfl, rfl, rfl⟩

theorem capture_without_stream_witness :
    demoPage.mediaStream = none ∧ capture demoPage = demoPage :=
  ⟨rfl, (capture_without_stream demoPage rfl).1⟩

/-- C7: with a stream active, `capture`, `savePhoto`, `savePhoto` adds to the call
log one call only, a download named `myPhoto.jpg`; `photoReady` is false after
the first save and the second save returns the state it was given.  In any state
with `photoReady` false `savePhoto` changes nothing. -/
theorem capture_save_save (s : State) (m : MediaStream) (h : s.mediaStream = some m) :
    (∃ d : HostCall,
        (savePhoto (savePhoto (capture s))).calls = s.calls ++ [d] ∧
          d.isDownload = true ∧ d.downloadName = some "myPhoto.jpg") ∧
      downloads (savePhoto (capture s)).calls = downloads s.calls + 1 ∧
      (savePhoto (capture s)).photoReady = false ∧
      savePhoto (savePhoto (capture s)) = savePhoto (capture s) ∧
      ∀ t : State, t.photoReady = false → savePhoto t = t := by
  have hs : s.mediaStream.isNone = false := by simp [h]
  have hr : (capture s).photoReady = true := capture_photoReady s hs
  have hc : (capture s).calls = s.calls := capture_calls s
  have h2 : (savePhoto (capture s)).photoReady = false := by
    unfold savePhoto
    simp [hr]
  have h3 : savePhoto (savePhoto (capture s)) = savePhoto (capture s) :=
    savePhoto_not_ready _ h2
  refine ⟨?_, ?_, h2, h3, savePhoto_not_ready⟩
  · rw [h3]
    by_cases hb : (capture s).hasMsSaveBlob = true
    · refine ⟨HostCall.msSaveBlob ((capture s).canvas.encode "image/jpeg") "myPhoto.jpg", ?_, rfl, rfl⟩
      unfold savePhoto
      simp [hr, hb, State.call, hc]
    · refine ⟨HostCall.linkClick (some ((capture s).canvas.encode "image/jpeg"))
        (some "myPhoto.jpg"), ?_, rfl, rfl⟩
      unfold savePhoto
      simp [hr, hb, State.call, hc]
  · by_cases hb : (capture s).hasMsSaveBlob = true
    · unfold savePhoto
      simp [hr, hb, State.call, hc, downloads, HostCall.isDownload]
    · unfold savePhoto
      simp [hr, hb, State.call, hc, downloads, HostCall.isDownload]

theorem capture_save_save_witness :
    twoCamSession.mediaStream = some { videoTrack := 1 } ∧
      downloads (savePhoto (capture twoCamSession)).calls = downloads twoCamSession.calls + 1 ∧
      savePhoto (savePhoto (capture twoCamSession)) = savePhoto (capture twoCamSession) :=
  ⟨rfl, (capture_save_save twoCamSession _ rfl).2.1, (capture_save_save twoCamSession _ rfl).2.2.2.1⟩

/-! ## Acquisition errors -/

/-- C9, as stated, fails: the error named `DevicesNotFoundError` is not named
`NotFoundError`, yet `getUserMediaError` reports `Webcam not found.` for it and not
the generic message. -/
theorem getUserMediaError_other_name_specific :
    (MediaError.mk "DevicesNotFoundError").name ≠ "NotFoundError" ∧
      (getUserMediaError (MediaError.mk "DevicesNotFoundError") demoPage).errorLines =
        ["ERROR: Webcam not found."] ∧
      (getUserMediaError (MediaError.mk "DevicesNotFoundError") demoPage).errorLines ≠
        ["ERROR: " ++ genericMessage "DevicesNotFoundError"] := by
  decide

/-- C9, amended: `getUserMediaError` appends one line to the error region and
changes nothing else; the line is `ERROR: Webcam not found.` when `e.name` contains
`NotFoundError` as a substring, and otherwise `ERROR: ` followed by the generic
message, which quotes `e.name` verbatim. -/
theorem getUserMediaError_message (e : MediaError) (s : State) :
    getUserMediaError e s =
      { s with errorLines := s.errorLines ++
          ["ERROR: " ++
            if "NotFoundError".data <:+: e.name.data then "Webcam not found."
            else "The following error occurred: \"" ++ e.name ++
              "\" Please check your webcam device(s) and try again."] } := by
  unfold getUserMediaError
  by_cases h : "NotFoundError".data <:+: e.name.data
  · rw [if_pos ((indexOf_nonneg_iff _ _).mpr h), if_pos h]
    rfl
  · rw [if_neg (fun h2 => h ((indexOf_nonneg_iff _ _).mp h2)), if_neg h]
    rfl

/-! ## Switching cameras -/

theorem nextWebCamSelect_active (s : State) (m : MediaStream) (i : Nat)
    (hm : s.mediaStream = some m) (hc : s.currentCam = some i)
    (hi : i < s.webcamList.length) :
    nextWebCamSelect s =
      { s with
        switchDisabled := true
        currentCam := some ((i + 1) % s.webcamList.length)
        video := { s.video with srcObject := SrcObject.null, src := Src.null }
        calls := s.calls ++ [HostCall.trackStop m.videoTrack]
        mediaStream := none } := by
  have hmod : (if i + 1 ≥ s.webcamList.length then 0 else i + 1) =
      (i + 1) % s.webcamList.length := by
    by_cases h : i + 1 ≥ s.webcamList.length
    · have h2 : i + 1 = s.webcamList.length := by omega
      rw [if_pos h, h2, Nat.mod_self]
    · rw [if_neg h, Nat.mod_eq_of_lt (by omega)]
  unfold nextWebCamSelect
  simp only [hc, hm, State.call, hmod, MediaStream.getVideoTracks, List.head_cons]

theorem stoppedTracks_append (cs ds : List HostCall) :
    stoppedTracks (cs ++ ds) = stoppedTracks cs ++ stoppedTracks ds := by
  induction cs with
  | nil => rfl
  | cons c cs ih => cases c <;> simp [stoppedTracks, ih]

/-- C4: with a stream `m` active and the cursor at `i < N`, `nextWebCam` adds to
the call log `stop()` on every track of `m` and then one `getUserMedia` request at
1280x720 for `webcamList[(i + 1) mod N]`, an element of the list, and nothing
else, so no track of another stream is stopped; the stream handle is null before
the request is made and after the call. -/
theorem nextWebCam_switches (s : State) (m : MediaStream) (i : Nat)
    (hm : s.mediaStream = some m) (hc : s.currentCam = some i)
    (hi : i < s.webcamList.length) :
    (nextWebCam s).calls =
        s.calls ++ (m.getVideoTracks.map HostCall.trackStop ++
          [HostCall.getUserMedia 1280 720
            (s.webcamList.get? ((i + 1) % s.webcamList.length))]) ∧
      (∃ id ∈ s.webcamList,
        s.webcamList.get? ((i + 1) % s.webcamList.length) = some id) ∧
      (nextWebCamSelect s).mediaStream = none ∧
      (nextWebCamSelect s).calls = s.calls ++ m.getVideoTracks.map HostCall.trackStop ∧
      nextWebCam s = nextWebCamRequest (nextWebCamSelect s) ∧
      (nextWebCam s).mediaStream = none ∧
      (nextWebCam s).currentCam = some ((i + 1) % s.webcamList.length) ∧
      stoppedTracks (nextWebCam s).calls = stoppedTracks s.calls ++ m.getVideoTracks ∧
      (∀ t ∈ m.getVideoTracks, HostCall.trackStop t ∈ (nextWebCam s).calls) := by
  have hsel := nextWebCamSelect_active s m i hm hc hi
  have hlt : (i + 1) % s.webcamList.length < s.webcamList.length :=
    Nat.mod_lt _ (by omega)
  have hcalls : (nextWebCam s).calls =
      s.calls ++ (m.getVideoTracks.map HostCall.trackStop ++
        [HostCall.getUserMedia 1280 720
          (s.webcamList.get? ((i + 1) % s.webcamList.length))]) := by
    unfold nextWebCam nextWebCamRequest
    rw [hsel]
    simp [State.call, arrayGet, MediaStream.getVideoTracks]
  have hstop : stoppedTracks (nextWebCam s).calls =
      stoppedTracks s.calls ++ m.getVideoTracks := by
    rw [hcalls, stoppedTracks_append]
    rfl
  refine ⟨hcalls, ?_, ?_, ?_, rfl, ?_, ?_, hstop, ?_⟩
  · refine ⟨s.webcamList.get ⟨_, hlt⟩, List.get_mem _ _ _, ?_⟩
    exact List.get?_eq_get hlt
  · rw [hsel]
  · rw [hsel]
    rfl
  · unfold nextWebCam nextWebCamRequest
    rw [hsel]
    rfl
  · unfold nextWebCam nextWebCamRequest
    rw [hsel]
    rfl
  · intro t ht
    rw [hcalls]
    simp only [MediaStream.getVideoTracks, List.mem_singleton] at ht
    simp [MediaStream.getVideoTracks, ht]

theorem nextWebCam_switches_witness :
    twoCamSession.mediaStream = some { videoTrack := 1 } ∧
      twoCamSession.currentCam = some 0 ∧ 0 < twoCamSession.webcamList.length ∧
      (nextWebCam twoCamSession).calls =
        twoCamSession.calls ++
          [HostCall.trackStop 1, HostCall.getUserMedia 1280 720 (some "camB")] :=
  ⟨rfl, rfl, by decide,
    (nextWebCam_switches twoCamSession _ 0 rfl rfl (by decide)).1.trans (by decide)⟩

/-! ## Enumeration results and the switch control -/

theorem nextWebCam_switchDisabled (s : State) : (nextWebCam s).switchDisabled = true := by
  unfold nextWebCam nextWebCamRequest nextWebCamSelect
  cases h1 : s.currentCam <;> cases h2 : s.mediaStream <;> simp [h1, h2, State.call]

theorem devicesCallback_switch_of_nonempty (devices : List Device) (s : State)
    (h : (devicesCallback devices s).webcamList ≠ []) :
    ((devicesCallback devices s).switchDisabled = false ↔
      1 < (devicesCallback devices s).webcamList.length) := by
  rw [devicesCallback_webcamList_eq] at h ⊢
  have hpos : (identifyWebcams devices s.webcamList).length > 0 :=
    List.length_pos.mpr h
  unfold devicesCallback
  by_cases h2 : (identifyWebcams devices s.webcamList).length > 1
  · simp [hpos, h2, State.call, nextWebCam_webcamList]
  · simp [hpos, h2, State.call, nextWebCam_webcamList]

theorem devicesCallback_switch_of_empty (devices : List Device) (s : State)
    (h : (devicesCallback devices s).webcamList = []) :
    (devicesCallback devices s).switchDisabled = s.switchDisabled := by
  rw [devicesCallback_webcamList_eq] at h
  unfold devicesCallback
  simp [h, State.call, writeError]

/-- C2 fails on the code when all cameras go away: in the two-camera session the
switch is enabled; the next enumeration returns no `videoinput` device, the
resulting `webcamList` is empty, and the switch is still enabled after
`devicesCallback`. -/
theorem devicesCallback_empty_keeps_switch_enabled :
    twoCamSession.switchDisabled = false ∧
      (hotPlug [⟨"audioinput", "mic"⟩] twoCamSession).webcamList = [] ∧
      (hotPlug [⟨"audioinput", "mic"⟩] twoCamSession).switchDisabled = false ∧
      (hotPlug [⟨"audioinput", "mic"⟩] twoCamSession).errorLines =
        ["ERROR: Webcam not found."] := by
  decide

theorem devicesCallback_first_enumeration (devices : List Device) (s : State)
    (hc : s.currentCam = none) (h : (devicesCallback devices s).webcamList ≠ []) :
    (devicesCallback devices s).calls =
      s.calls ++ [HostCall.getUserMedia 1280 720 (devicesCallback devices s).webcamList.head?,
        HostCall.addDeviceChangeListener] := by
  rw [devicesCallback_webcamList_eq] at h ⊢
  have hpos : (identifyWebcams devices s.webcamList).length > 0 :=
    List.length_pos.mpr h
  have hhead : ∀ l : List String, l.head? = l.get? 0 := by
    intro l; cases l <;> rfl
  rw [hhead]
  unfold devicesCallback
  by_cases h2 : (identifyWebcams devices s.webcamList).length > 1
  · simp [hpos, h2, State.call, nextWebCam, nextWebCamRequest, nextWebCamSelect, hc, arrayGet]
  · simp [hpos, h2, State.call, nextWebCam, nextWebCamRequest, nextWebCamSelect, hc, arrayGet]

/-- C3 fails on the code on a re-enumeration: in the two-camera session the cursor
is 0; a hot-plug whose enumeration lists the same two cameras makes `devicesCallback`
request `camB`, the second entry of the resulting `webcamList`, not the first. -/
theorem devicesCallback_reenumeration_requests_second :
    twoCamSession.currentCam = some 0 ∧
      (hotPlug [⟨"audioinput", "mic"⟩, ⟨"videoinput", "camA"⟩, ⟨"videoinput", "camB"⟩]
        twoCamSession).webcamList = ["camA", "camB"] ∧
      (hotPlug [⟨"audioinput", "mic"⟩, ⟨"videoinput", "camA"⟩, ⟨"videoinput", "camB"⟩]
        twoCamSession).calls =
        twoCamSession.calls ++
          [HostCall.removeDeviceChangeListener, HostCall.enumerateDevices,
            HostCall.trackStop 1, HostCall.getUserMedia 1280 720 (some "camB"),
            HostCall.addDeviceChangeListener] := by
  decide

/-! ## Rotation of the cursor -/

theorem nextWebCam_currentCam (s : State) (i : Nat) (hc : s.currentCam = some i)
    (hi : i < s.webcamList.length) :
    (nextWebCam s).currentCam = some ((i + 1) % s.webcamList.length) := by
  have hmod : (if i + 1 ≥ s.webcamList.length then 0 else i + 1) =
      (i + 1) % s.webcamList.length := by
    by_cases h : i + 1 ≥ s.webcamList.length
    · have h2 : i + 1 = s.webcamList.length := by omega
      rw [if_pos h, h2, Nat.mod_self]
    · rw [if_neg h, Nat.mod_eq_of_lt (by omega)]
  unfold nextWebCam nextWebCamRequest nextWebCamSelect
  cases h2 : s.mediaStream <;> simp [hc, h2, State.call, hmod]

theorem deliver_currentCam (r : HostReply) (s : State) :
    (deliver r s).currentCam = s.currentCam ∧ (deliver r s).webcamList = s.webcamList := by
  cases r with
  | pending => exact ⟨rfl, rfl⟩
  | resolved m =>
    unfold deliver initializeVideoStream
    by_cases h1 : s.video.srcObject ≠ SrcObject.undefined <;>
      by_cases h2 : s.webcamList.length > 1 <;> simp [h1, h2]
  | rejected e =>
    unfold deliver getUserMediaError
    by_cases h1 : indexOf e.name "NotFoundError" ≥ 0 <;> simp [h1, writeError]

theorem switchRounds_cursor (rs : List HostReply) (s : State) (i : Nat)
    (hc : s.currentCam = some i) (hi : i < s.webcamList.length) :
    (switchRounds rs s).currentCam = some ((i + rs.length) % s.webcamList.length) ∧
      (switchRounds rs s).webcamList = s.webcamList := by
  induction rs generalizing s i with
  | nil =>
    refine ⟨?_, rfl⟩
    simp [switchRounds, hc, Nat.mod_eq_of_lt hi]
  | cons r rs ih =>
    have hw : (switchRound r s).webcamList = s.webcamList := by
      unfold switchRound
      rw [(deliver_currentCam r _).2, nextWebCam_webcamList]
    have hcur : (switchRound r s).currentCam = some ((i + 1) % s.webcamList.length) := by
      unfold switchRound
      rw [(deliver_currentCam r _).1, nextWebCam_currentCam s i hc hi]
    have hlt : (i + 1) % s.webcamList.length < (switchRound r s).webcamList.length := by
      rw [hw]
      exact Nat.mod_lt _ (by omega)
    have h := ih (switchRound r s) _ hcur hlt
    rw [hw] at h
    refine ⟨?_, h.2⟩
    show (switchRounds rs (switchRound r s)).currentCam = _
    rw [h.1, List.length_cons, Nat.mod_add_mod]
    congr 2
    omega

/-- C5: with `N >= 1` devices and the cursor at 0, after `k` consecutive
`nextWebCam` calls (whatever the host answers to each request in between) the
list is unchanged and the cursor is `k mod N`: it equals `k` for `k < N` and is
back at 0 for `k = N`. -/
theorem rotation_is_circular (s : State) (rs : List HostReply)
    (hN : 1 ≤ s.webcamList.length) (h0 : s.currentCam = some 0) :
    (switchRounds rs s).webcamList = s.webcamList ∧
      (switchRounds rs s).currentCam = some (rs.length % s.webcamList.length) ∧
      (rs.length < s.webcamList.length → (switchRounds rs s).currentCam = some rs.length) ∧
      (rs.length = s.webcamList.length → (switchRounds rs s).currentCam = some 0) := by
  have h := switchRounds_cursor rs s 0 h0 (by omega)
  rw [Nat.zero_add] at h
  refine ⟨h.2, h.1, ?_, ?_⟩
  · intro hk
    rw [h.1, Nat.mod_eq_of_lt hk]
  · intro hk
    rw [h.1, hk, Nat.mod_self]

theorem rotation_is_circular_witness :
    1 ≤ twoCamSession.webcamList.length ∧ twoCamSession.currentCam = some 0 ∧
      (switchRounds [HostReply.pending] twoCamSession).currentCam = some 1 ∧
      (switchRounds [HostReply.resolved ⟨5⟩, HostReply.pending]
        twoCamSession).currentCam = some 0 :=
  ⟨by decide, rfl,
    (rotation_is_circular twoCamSession [HostReply.pending] (by decide) rfl).2.2.1 (by decide),
    (rotation_is_circular twoCamSession [HostReply.resolved ⟨5⟩, HostReply.pending]
      (by decide) rfl).2.2.2 (by decide)⟩

/-! ## Hot-plug notifications -/

theorem count_add_after_remove (h : Handler) (ls : List Handler) :
    (addEventListener h (removeEventListener h ls)).count h = 1 := by
  have hnot : h ∉ removeEventListener h ls := by
    unfold removeEventListener
    simp [List.mem_filter]
  unfold addEventListener
  rw [if_neg hnot, List.count_append, List.count_eq_zero_of_not_mem hnot]
  simp

theorem nextWebCam_deviceChangeListeners (s : State) :
    (nextWebCam s).deviceChangeListeners = s.deviceChangeListeners := by
  unfold nextWebCam nextWebCamRequest nextWebCamSelect
  cases h1 : s.currentCam <;> cases h2 : s.mediaStream <;> simp [h1, h2, State.call]

theorem nextWebCam_count (s : State) (c : HostCall)
    (h1 : ∀ t, c ≠ HostCall.trackStop t) (h2 : ∀ w h d, c ≠ HostCall.getUserMedia w h d) :
    (nextWebCam s).calls.count c = s.calls.count c := by
  have e1 : ∀ t, (HostCall.trackStop t == c) = false := by
    intro t
    exact beq_false_of_ne (fun h => h1 t h.symm)
  have e2 : ∀ w h d, (HostCall.getUserMedia w h d == c) = false := by
    intro w h d
    exact beq_false_of_ne (fun h3 => h2 w h d h3.symm)
  unfold nextWebCam nextWebCamRequest nextWebCamSelect
  cases h3 : s.currentCam <;> cases h4 : s.mediaStream <;>
    simp [h3, h4, State.call, List.count_append, List.count_cons, e1, e2]

theorem devicesCallback_count (devices : List Device) (s : State) :
    (devicesCallback devices s).calls.count HostCall.enumerateDevices =
        s.calls.count HostCall.enumerateDevices ∧
      (devicesCallback devices s).calls.count HostCall.addDeviceChangeListener =
        s.calls.count HostCall.addDeviceChangeListener + 1 ∧
      (devicesCallback devices s).deviceChangeListeners =
        addEventListener Handler.deviceChanged s.deviceChangeListeners := by
  have n1 := nextWebCam_count { s with webcamList := identifyWebcams devices s.webcamList }
    HostCall.enumerateDevices (by intro t; simp) (by intro w h d; simp)
  have n2 := nextWebCam_count { s with webcamList := identifyWebcams devices s.webcamList }
    HostCall.addDeviceChangeListener (by intro t; simp) (by intro w h d; simp)
  have n3 := nextWebCam_deviceChangeListeners
    { s with webcamList := identifyWebcams devices s.webcamList }
  simp only at n1 n2 n3
  unfold devicesCallback
  by_cases h : (identifyWebcams devices s.webcamList).length > 0
  · by_cases h2 : (identifyWebcams devices s.webcamList).length > 1
    · simp [h, h2, State.call, nextWebCam_webcamList, List.count_append, n1, n2, n3]
    · simp [h, h2, State.call, nextWebCam_webcamList, List.count_append, n1, n2, n3]
  · simp [h, State.call, writeError, List.count_append]

theorem hotPlug_count (devices : List Device) (s : State) :
    (hotPlug devices s).calls.count HostCall.enumerateDevices =
        s.calls.count HostCall.enumerateDevices + 1 ∧
      (hotPlug devices s).calls.count HostCall.addDeviceChangeListener =
        s.calls.count HostCall.addDeviceChangeListener + 1 ∧
      (hotPlug devices s).deviceChangeListeners.count Handler.deviceChanged = 1 := by
  have h := devicesCallback_count devices (deviceChanged s)
  unfold hotPlug
  rw [h.1, h.2.1, h.2.2]
  refine ⟨?_, ?_, ?_⟩
  · simp [deviceChanged, State.call, List.count_append]
  · simp [deviceChanged, State.call, List.count_append]
  · simp only [deviceChanged, State.call]
    exact count_add_after_remove _ _

theorem hotPlugs_count (rounds : List (List Device)) (s : State) :
    (hotPlugs rounds s).calls.count HostCall.enumerateDevices =
        s.calls.count HostCall.enumerateDevices + rounds.length ∧
      (hotPlugs rounds s).calls.count HostCall.addDeviceChangeListener =
        s.calls.count HostCall.addDeviceChangeListener + rounds.length := by
  induction rounds generalizing s with
  | nil => exact ⟨rfl, rfl⟩
  | cons d ds ih =>
    have h := ih (hotPlug d s)
    have h2 := hotPlug_count d s
    unfold hotPlugs
    rw [h.1, h.2, h2.1, h2.2.1, List.length_cons]
    constructor <;> omega

/-- C8: in any state, and so in the state after the initial enumeration and after
any number of earlier hot-plug notifications, handling one more notification
(`deviceChanged`, then `devicesCallback`) issues exactly one `enumerateDevices`
call and exactly one registration of the `devicechange` listener, and leaves
exactly one `deviceChanged` listener registered; `k` notifications issue `k` of
each. -/
theorem hotPlug_reenumerates_once (s : State) (rounds : List (List Device))
    (devices : List Device) :
    (hotPlug devices (hotPlugs rounds s)).calls.count HostCall.enumerateDevices =
        (hotPlugs rounds s).calls.count HostCall.enumerateDevices + 1 ∧
      (hotPlug devices (hotPlugs rounds s)).calls.count HostCall.addDeviceChangeListener =
        (hotPlugs rounds s).calls.count HostCall.addDeviceChangeListener + 1 ∧
      (hotPlug devices (hotPlugs rounds s)).deviceChangeListeners.count
        Handler.deviceChanged = 1 ∧
      (hotPlugs rounds s).calls.count HostCall.enumerateDevices =
        s.calls.count HostCall.enumerateDevices + rounds.length ∧
      (hotPlugs rounds s).calls.count HostCall.addDeviceChangeListener =
        s.calls.count HostCall.addDeviceChangeListener + rounds.length := by
  have h := hotPlug_count devices (hotPlugs rounds s)
  have h2 := hotPlugs_count rounds s
  exact ⟨h.1, h.2.1, h.2.2, h2.1, h2.2⟩

/-! ## The save binding -/

theorem count_remove (h : Handler) (ls : List Handler) :
    (removeEventListener h ls).count h = 0 := by
  apply List.count_eq_zero_of_not_mem
  unfold removeEventListener
  simp [List.mem_filter]

theorem capture_active (s : State) (m : MediaStream) (hm : s.mediaStream = some m) :
    (capture s).mediaStream = some m ∧ (capture s).video = s.video ∧
      (capture s).photoReady = true ∧
      (capture s).canvas.width = s.video.videoWidth ∧
      (capture s).canvas.height = s.video.videoHeight ∧
      (capture s).canvas.clickListeners =
        addEventListener Handler.savePhoto
          (removeEventListener Handler.savePhoto s.canvas.clickListeners) := by
  unfold capture
  by_cases hd : s.canvas.width ≠ s.video.videoWidth ∨ s.canvas.height ≠ s.video.videoHeight
  · simp [hm, hd, Canvas.resize, Canvas.drawImage]
  · have hd2 := not_or.mp hd
    have hw : s.canvas.width = s.video.videoWidth := not_not.mp hd2.1
    have hh : s.canvas.height = s.video.videoHeight := not_not.mp hd2.2
    simp [hm, hw, hh, Canvas.drawImage]

theorem captureTimes_active (n : Nat) (s : State) (m : MediaStream)
    (hm : s.mediaStream = some m) :
    (captureTimes (n + 1) s).mediaStream = some m ∧
      (captureTimes (n + 1) s).video = s.video ∧
      (captureTimes (n + 1) s).photoReady = true ∧
      (captureTimes (n + 1) s).canvas.width = s.video.videoWidth ∧
      (captureTimes (n + 1) s).canvas.height = s.video.videoHeight ∧
      saveBindings (captureTimes (n + 1) s) = 1 := by
  induction n generalizing s with
  | zero =>
    have h := capture_active s m hm
    refine ⟨h.1, h.2.1, h.2.2.1, h.2.2.2.1, h.2.2.2.2.1, ?_⟩
    show (capture s).canvas.clickListeners.count Handler.savePhoto = 1
    rw [h.2.2.2.2.2]
    exact count_add_after_remove _ _
  | succ n ih =>
    have h := capture_active s m hm
    have h2 := ih (capture s) h.1
    rw [h.2.1] at h2
    exact h2

theorem click_keeps_binding (c : Click) (s : State) (h : BindingMatchesReady s) :
    BindingMatchesReady (click c s) := by
  cases c with
  | video =>
    show BindingMatchesReady (capture s)
    cases hm : s.mediaStream with
    | none =>
      have h1 : capture s = s := by simp [capture, hm]
      rw [h1]
      exact h
    | some m =>
      have h1 := capture_active s m hm
      unfold BindingMatchesReady saveBindings
      rw [h1.2.2.1, h1.2.2.2.2.2, count_add_after_remove]
      rfl
  | canvas =>
    show BindingMatchesReady (savePhoto s)
    by_cases hr : s.photoReady = true
    · unfold BindingMatchesReady saveBindings savePhoto
      by_cases hb : s.hasMsSaveBlob = true
      · simp [hr, hb, State.call, count_remove]
      · simp [hr, hb, State.call, count_remove]
    · have h1 : savePhoto s = s := savePhoto_not_ready s (by simpa using hr)
      rw [h1]
      exact h

theorem clicks_keep_binding (cs : List Click) (s : State) (h : BindingMatchesReady s) :
    BindingMatchesReady (clicks cs s) := by
  induction cs generalizing s with
  | nil => exact h
  | cons c cs ih => exact ih (click c s) (click_keeps_binding c s h)

theorem binding_of_matches (s : State) (h : BindingMatchesReady s) :
    (Handler.savePhoto ∈ s.canvas.clickListeners ↔ s.photoReady = true) ∧
      saveBindings s ≤ 1 := by
  unfold BindingMatchesReady saveBindings at h
  unfold saveBindings
  by_cases hr : s.photoReady = true
  · rw [if_pos hr] at h
    refine ⟨⟨fun _ => hr, fun _ => ?_⟩, by omega⟩
    exact List.count_pos_iff.mp (by omega)
  · rw [if_neg hr] at h
    refine ⟨⟨fun hmem => ?_, fun h2 => absurd h2 hr⟩, by omega⟩
    have := List.count_pos_iff.mpr hmem
    omega

/-- C10: with a stream active, after `n >= 1` consecutive `capture` calls exactly
one `savePhoto` binding is on the canvas, `photoReady` is true and the canvas has
the natural width and height of the video; after any further sequence of
`capture` and `savePhoto` calls the binding is on the canvas if and only if
`photoReady` is true, and never more than once. -/
theorem capture_installs_one_binding (s : State) (m : MediaStream) (n : Nat)
    (cs : List Click) (hm : s.mediaStream = some m) (hn : 1 ≤ n) :
    saveBindings (captureTimes n s) = 1 ∧ (captureTimes n s).photoReady = true ∧
      (captureTimes n s).canvas.width = (captureTimes n s).video.videoWidth ∧
      (captureTimes n s).canvas.height = (captureTimes n s).video.videoHeight ∧
      (Handler.savePhoto ∈ (clicks cs (captureTimes n s)).canvas.clickListeners ↔
        (clicks cs (captureTimes n s)).photoReady = true) ∧
      saveBindings (clicks cs (captureTimes n s)) ≤ 1 := by
  obtain ⟨k, rfl⟩ : ∃ k, n = k + 1 := ⟨n - 1, by omega⟩
  have h := captureTimes_active k s m hm
  have hb : BindingMatchesReady (captureTimes (k + 1) s) := by
    unfold BindingMatchesReady
    rw [h.2.2.2.2.2, h.2.2.1]
    rfl
  have h2 := binding_of_matches _ (clicks_keep_binding cs _ hb)
  refine ⟨h.2.2.2.2.2, h.2.2.1, ?_, ?_, h2.1, h2.2⟩
  · rw [h.2.1]; exact h.2.2.2.1
  · rw [h.2.1]; exact h.2.2.2.2.1

theorem capture_installs_one_binding_witness :
    twoCamSession.mediaStream = some { videoTrack := 1 } ∧
      1 ≤ 3 ∧ saveBindings (captureTimes 3 twoCamSession) = 1 ∧
      saveBindings (clicks [Click.canvas, Click.video, Click.video, Click.canvas, Click.canvas]
        (captureTimes 3 twoCamSession)) ≤ 1 :=
  ⟨rfl, by decide,
    (capture_installs_one_binding twoCamSession _ 3 [] rfl (by decide)).1,
    (capture_installs_one_binding twoCamSession _ 3
      [Click.canvas, Click.video, Click.video, Click.canvas, Click.canvas] rfl
      (by decide)).2.2.2.2.2⟩

end UserMedia
